import Mathlib

/-!
Shallow embedding of the per-call session core of `src/index.ts`
(centrallino-ai): the session registry (`activeCalls` map), the
media-stream event handler (start / media / stop demux), the audio
pipeline `processAudioPipeline`, and the greeting flow `sendGreeting`.

External collaborators (Whisper transcription, the chat model, the
ElevenLabs synthesis endpoint, ffmpeg transcoding, the WebSocket send,
the campaign database, base64 decoding of media payloads) are modelled
as environment records supplying the outcome of each call; the embedded
functions are otherwise translated line by line from the source.
-/

namespace Centralino

/-! ## Data model -/

/-- Speaker role of one turn of `conversationHistory`. -/
inductive Role
  | user
  | assistant
deriving Repr, DecidableEq

/-- One entry of `session.conversationHistory`. -/
structure Turn where
  role : Role
  content : String
deriving Repr, DecidableEq

/-- Structure `CallSession` from `index.ts` (the authoritative version with
`campaignPrompt`, `campaignVoiceId` and `isProcessing`).  The WebSocket
handle is represented by the outbound messages the run produces, so the
`socket` field is dropped; buffers are byte lists. -/
structure CallSession where
  callSid : String
  streamSid : String
  campaignPrompt : String
  campaignVoiceId : String
  isProcessing : Bool
  conversationHistory : List Turn
  audioBuffer : List (List Nat)
deriving Repr, DecidableEq

/-- An outbound `{event:"media", streamSid, media:{payload}}` message
written to the socket of the session. -/
structure OutMessage where
  streamSid : String
  payload : List Nat
deriving Repr, DecidableEq

/-- Response of the ElevenLabs text-to-speech fetch: `ok` flag, HTTP
status, and body bytes. -/
structure TtsResponse where
  ok : Bool
  status : Nat
  body : List Nat
deriving Repr, DecidableEq

/-- Outcomes of the external engine calls one run can make.  `.error`
models a thrown/rejected promise at that call site. -/
structure EngineEnv where
  /-- Outcome of `mulawToWav` (ffmpeg decode). -/
  decodeResult : Except String (List Nat)
  /-- Whisper transcription outcome (`transcription.text`). -/
  transcribeResult : Except String String
  /-- Chat-completion outcome: `choices[0]?.message?.content`. -/
  converseResult : Except String (Option String)
  /-- ElevenLabs text-to-speech fetch outcome. -/
  ttsFetch : Except String TtsResponse
  /-- Outcome of `mp3ToMulaw` (ffmpeg encode). -/
  encodeResult : Except String (List Nat)
  /-- Outcome of `socket.send`. -/
  sendResult : Except String Unit

/-- Observable result of one `processAudioPipeline` call: the session
after the run, the messages sent, the chat and synthesis requests
issued (with their arguments), the session snapshots taken between
stages while the run was in flight, and whether the run got past the
`isProcessing` guard. -/
structure RunResult where
  finalSession : CallSession
  sent : List OutMessage
  converseCalls : List (String × List Turn)
  synthCalls : List (String × String)
  midStates : List CallSession
  entered : Bool
deriving Repr, DecidableEq

/-- JavaScript `String.prototype.trim()`: strip whitespace from both
ends.  Implemented over the character list so that it reduces inside
the kernel (the library `String.trim` is equivalent but defined through
`Substring` functions that do not reduce definitionally). -/
def jsTrim (s : String) : String :=
  ⟨((s.data.dropWhile Char.isWhitespace).reverse.dropWhile Char.isWhitespace).reverse⟩

/-! ## The conversation pipeline -/

/-- Function `processAudioPipeline(session, audioBuffer)` from `index.ts`:
guard on `isProcessing`, then decode → transcribe (empty-transcript
short circuit) → append user turn, chat, append assistant turn →
synthesize (non-ok response throws) → encode → send, with every throw
caught and a `finally` clearing `isProcessing`. -/
def processAudioPipeline (env : EngineEnv) (s : CallSession) (_audio : List Nat) : RunResult :=
  if s.isProcessing then
    { finalSession := s, sent := [], converseCalls := [], synthCalls := [],
      midStates := [], entered := false }
  else
    let s1 : CallSession := { s with isProcessing := true }
    match env.decodeResult with
    | .error _ =>
        { finalSession := { s1 with isProcessing := false }, sent := [],
          converseCalls := [], synthCalls := [], midStates := [s1], entered := true }
    | .ok _wav =>
      match env.transcribeResult with
      | .error _ =>
          { finalSession := { s1 with isProcessing := false }, sent := [],
            converseCalls := [], synthCalls := [], midStates := [s1], entered := true }
      | .ok text =>
        let userText := jsTrim text
        if userText = "" then
          { finalSession := { s1 with isProcessing := false }, sent := [],
            converseCalls := [], synthCalls := [], midStates := [s1], entered := true }
        else
          let s2 : CallSession :=
            { s1 with conversationHistory :=
                s1.conversationHistory ++ [{ role := Role.user, content := userText }] }
          let chatCall := (s2.campaignPrompt, s2.conversationHistory)
          match env.converseResult with
          | .error _ =>
              { finalSession := { s2 with isProcessing := false }, sent := [],
                converseCalls := [chatCall], synthCalls := [], midStates := [s1, s2],
                entered := true }
          | .ok content =>
            let assistantText := content.getD ""
            let s3 : CallSession :=
              { s2 with conversationHistory :=
                  s2.conversationHistory ++ [{ role := Role.assistant, content := assistantText }] }
            let synthCall := (assistantText, s3.campaignVoiceId)
            match env.ttsFetch with
            | .error _ =>
                { finalSession := { s3 with isProcessing := false }, sent := [],
                  converseCalls := [chatCall], synthCalls := [synthCall],
                  midStates := [s1, s2, s3], entered := true }
            | .ok resp =>
              if resp.ok = false then
                { finalSession := { s3 with isProcessing := false }, sent := [],
                  converseCalls := [chatCall], synthCalls := [synthCall],
                  midStates := [s1, s2, s3], entered := true }
              else
                match env.encodeResult with
                | .error _ =>
                    { finalSession := { s3 with isProcessing := false }, sent := [],
                      converseCalls := [chatCall], synthCalls := [synthCall],
                      midStates := [s1, s2, s3], entered := true }
                | .ok mulaw =>
                  match env.sendResult with
                  | .error _ =>
                      { finalSession := { s3 with isProcessing := false }, sent := [],
                        converseCalls := [chatCall], synthCalls := [synthCall],
                        midStates := [s1, s2, s3], entered := true }
                  | .ok _ =>
                      { finalSession := { s3 with isProcessing := false },
                        sent := [{ streamSid := s3.streamSid, payload := mulaw }],
                        converseCalls := [chatCall], synthCalls := [synthCall],
                        midStates := [s1, s2, s3], entered := true }

/-! ## The greeting flow -/

/-- The synthetic first user message sent to the chat model by
`sendGreeting`. -/
def startCallInstruction : String :=
  "[START_CALL] La llamada acaba de conectar. Presentate brevemente y saluda al usuario."

/-- Fallback greeting when the chat model returns no content
(the `??` fallback in the source). -/
def defaultGreeting : String := "Ciao, come posso aiutarti?"

/-- Observable result of one `sendGreeting` call.  `errorCaught` is true
exactly when the body threw and the surrounding `catch` logged the
error; `sendGreeting` itself always returns normally. -/
structure GreetingResult where
  finalSession : CallSession
  sent : List OutMessage
  converseCalls : List (String × List Turn)
  synthCalls : List (String × String)
  errorCaught : Bool
deriving Repr, DecidableEq

/-- Function `sendGreeting(session)` from `index.ts`: one try/catch around
chat-completion (system prompt + `[START_CALL]` instruction), append
the greeting as the first assistant turn, synthesize, encode, send.
Every failure is caught and logged; nothing propagates. -/
def sendGreeting (env : EngineEnv) (s : CallSession) : GreetingResult :=
  let chatCall := (s.campaignPrompt, [{ role := Role.user, content := startCallInstruction : Turn }])
  match env.converseResult with
  | .error _ =>
      { finalSession := s, sent := [], converseCalls := [chatCall], synthCalls := [],
        errorCaught := true }
  | .ok content =>
    let greetingText := content.getD defaultGreeting
    let s1 : CallSession :=
      { s with conversationHistory :=
          s.conversationHistory ++ [{ role := Role.assistant, content := greetingText }] }
    let synthCall := (greetingText, s1.campaignVoiceId)
    match env.ttsFetch with
    | .error _ =>
        { finalSession := s1, sent := [], converseCalls := [chatCall],
          synthCalls := [synthCall], errorCaught := true }
    | .ok resp =>
      if resp.ok = false then
        { finalSession := s1, sent := [], converseCalls := [chatCall],
          synthCalls := [synthCall], errorCaught := true }
      else
        match env.encodeResult with
        | .error _ =>
            { finalSession := s1, sent := [], converseCalls := [chatCall],
              synthCalls := [synthCall], errorCaught := true }
        | .ok mulaw =>
          match env.sendResult with
          | .error _ =>
              { finalSession := s1, sent := [], converseCalls := [chatCall],
                synthCalls := [synthCall], errorCaught := true }
          | .ok _ =>
              { finalSession := s1,
                sent := [{ streamSid := s1.streamSid, payload := mulaw }],
                converseCalls := [chatCall], synthCalls := [synthCall],
                errorCaught := false }

/-! ## The session registry (`activeCalls : Map<string, CallSession>`) -/

/-- Model of `activeCalls.get(streamSid)`. -/
def mapGet : List (String × CallSession) → String → Option CallSession
  | [], _ => none
  | (k, v) :: rest, key => if k = key then some v else mapGet rest key

/-- Model of `activeCalls.set(streamSid, session)`: replace the entry if the key
is present, otherwise append. -/
def mapSet : List (String × CallSession) → String → CallSession → List (String × CallSession)
  | [], key, v => [(key, v)]
  | (k, w) :: rest, key, v =>
      if k = key then (key, v) :: rest else (k, w) :: mapSet rest key v

/-- Model of `activeCalls.delete(streamSid)`. -/
def mapDelete : List (String × CallSession) → String → List (String × CallSession)
  | [], _ => []
  | (k, v) :: rest, key =>
      if k = key then mapDelete rest key else (k, v) :: mapDelete rest key

/-! ## The media-stream message handler -/

/-- A parsed inbound transport message, mirroring the `switch` on
`data.event`.  `track` is kept as a raw string because the handler
compares it to the literal `"inbound"`. -/
inductive TwilioEvent
  | start (accountSid callSid streamSid : String) (tracks : List String)
  | media (sequenceNumber : String) (track : String) (chunk : String)
      (payload : String) (streamSid : String)
  | stop (accountSid callSid streamSid : String)
  | unknown (event : String)
deriving Repr, DecidableEq

/-- The `console.log` / `console.error` lines the handler can emit,
tagged by call site. -/
inductive LogMsg
  | callStarted (callSid : String)
  | campaignFetchError
  | mediaUnknownStream (streamSid : String)
  | callEnded (callSid : String)
deriving Repr, DecidableEq

/-- Side effects of handling messages: log lines, fire-and-forget
`processAudioPipeline(session, combinedAudio)` launches (session
snapshot at launch and the concatenated audio handed over), and
fire-and-forget `sendGreeting(session)` launches. -/
structure Effects where
  logs : List LogMsg
  pipelineInvocations : List (CallSession × List Nat)
  greetings : List CallSession
deriving Repr, DecidableEq

def emptyEffects : Effects := { logs := [], pipelineInvocations := [], greetings := [] }

def Effects.append (a b : Effects) : Effects :=
  { logs := a.logs ++ b.logs,
    pipelineInvocations := a.pipelineInvocations ++ b.pipelineInvocations,
    greetings := a.greetings ++ b.greetings }

/-- One campaign row (`campaign_prompt`, `voice_id` may be NULL). -/
structure Campaign where
  campaign_prompt : Option String
  voice_id : Option String
deriving Repr, DecidableEq

/-- Per-connection environment of the handler: the `campaignId` query
parameter, the outcome of `getCampaignById`, the `ELEVENLABS_VOICE_ID`
environment variable, and base64 decoding of media payloads. -/
structure HandlerEnv where
  campaignIdParam : Option String
  campaignLookup : Except String (Option Campaign)
  envVoiceId : Option String
  b64 : String → List Nat

/-- JavaScript truthiness of an optional string (`undefined` and `""`
are falsy). -/
def truthyOpt : Option String → Bool
  | none => false
  | some s => s ≠ ""

/-- The default system prompt used when no campaign applies. -/
def defaultPrompt : String := "You are a helpful assistant."

/-- The error that `JSON.parse` throws on a malformed message; nothing
in the handler catches it. -/
def jsonParseError : String := "SyntaxError: JSON.parse"

/-- The body of the message listener from `index.ts`: parse
(a malformed message throws out of the handler, modelled as `.error`),
then switch on the event.  `start` resolves the campaign (defaulting on
absence, miss, empty fields or a lookup error), registers the session
and launches `sendGreeting`; `media` drops non-`"inbound"` tracks,
logs-and-drops unknown streams, appends the decoded chunk and flushes
at 150 frames into a `processAudioPipeline` launch; `stop` deletes the
session; an unknown event type falls through the `switch` silently. -/
def handleMessage (henv : HandlerEnv) (st : List (String × CallSession))
    (msg : Option TwilioEvent) : Except String (List (String × CallSession) × Effects) :=
  match msg with
  | none => .error jsonParseError
  | some (.start _accountSid callSid streamSid _tracks) =>
      let defVoice := henv.envVoiceId.getD ""
      let resolved :=
        if truthyOpt henv.campaignIdParam then
          match henv.campaignLookup with
          | .error _ => (defaultPrompt, defVoice, [LogMsg.campaignFetchError])
          | .ok camp =>
              let p := match camp.bind (·.campaign_prompt) with
                       | some cp => if cp = "" then defaultPrompt else cp
                       | none => defaultPrompt
              let v := match camp.bind (·.voice_id) with
                       | some vi => if vi = "" then defVoice else vi
                       | none => defVoice
              (p, v, [])
        else (defaultPrompt, defVoice, [])
      let newSession : CallSession :=
        { callSid := callSid, streamSid := streamSid,
          campaignPrompt := resolved.1, campaignVoiceId := resolved.2.1,
          isProcessing := false, conversationHistory := [], audioBuffer := [] }
      .ok (mapSet st streamSid newSession,
        { logs := LogMsg.callStarted callSid :: resolved.2.2,
          pipelineInvocations := [], greetings := [newSession] })
  | some (.media _seq track _chunk payload streamSid) =>
      if track ≠ "inbound" then .ok (st, emptyEffects)
      else
        match mapGet st streamSid with
        | none =>
            .ok (st, { logs := [LogMsg.mediaUnknownStream streamSid],
                       pipelineInvocations := [], greetings := [] })
        | some session =>
            let buf := session.audioBuffer ++ [henv.b64 payload]
            if buf.length ≥ 150 then
              let flushed : CallSession := { session with audioBuffer := [] }
              .ok (mapSet st streamSid flushed,
                { logs := [], pipelineInvocations := [(flushed, buf.flatten)], greetings := [] })
            else
              .ok (mapSet st streamSid { session with audioBuffer := buf }, emptyEffects)
  | some (.stop _accountSid callSid streamSid) =>
      .ok (mapDelete st streamSid,
        { logs := [LogMsg.callEnded callSid], pipelineInvocations := [], greetings := [] })
  | some (.unknown _) => .ok (st, emptyEffects)

/-- Process a list of messages in order, accumulating effects.  A
message whose handling throws leaves the registry as it was (the
exception escapes before any mutation) and later messages are still
delivered on their own handler invocations. -/
def runEvents (henv : HandlerEnv) (st : List (String × CallSession)) :
    List (Option TwilioEvent) → List (String × CallSession) × Effects
  | [] => (st, emptyEffects)
  | msg :: rest =>
      match handleMessage henv st msg with
      | .error _ => runEvents henv st rest
      | .ok (st', eff) =>
          let r := runEvents henv st' rest
          (r.1, eff.append r.2)

/-! ## Trace helpers -/

/-- An inbound-track media message for stream `sid` with the given
base64 payload. -/
def mediaMsg (sid payload : String) : Option TwilioEvent :=
  some (.media "1" "inbound" "1" payload sid)

/-- A media message whose track tag is part of the data: `tp.1` is the
track, `tp.2` the payload. -/
def mediaOf (sid : String) (tp : String × String) : Option TwilioEvent :=
  some (.media "1" tp.1 "1" tp.2 sid)

/-- Number of inbound-track frames in a list of (track, payload)
pairs. -/
def inboundCount (frames : List (String × String)) : Nat :=
  (frames.filter (fun tp => tp.1 = "inbound")).length

/-- The session the `start` handler builds when campaign resolution
falls back to the defaults. -/
def defaultSession (callSid streamSid : String) (henv : HandlerEnv) : CallSession :=
  { callSid := callSid, streamSid := streamSid, campaignPrompt := defaultPrompt,
    campaignVoiceId := henv.envVoiceId.getD "", isProcessing := false,
    conversationHistory := [], audioBuffer := [] }

/-! ## Concrete fixtures used by witnesses and counterexamples -/

/-- An engine environment in which every external call succeeds. -/
def okEnv : EngineEnv :=
  { decodeResult := .ok [7], transcribeResult := .ok "hola",
    converseResult := .ok (some "hi"), ttsFetch := .ok { ok := true, status := 200, body := [1] },
    encodeResult := .ok [2], sendResult := .ok () }

/-- A freshly created session, as the `start` handler builds it with the
defaults. -/
def freshSession : CallSession :=
  { callSid := "C1", streamSid := "S1", campaignPrompt := defaultPrompt,
    campaignVoiceId := "", isProcessing := false, conversationHistory := [],
    audioBuffer := [] }

/-- An engine environment whose transcription result is whitespace
only. -/
def blankTranscriptEnv : EngineEnv :=
  { decodeResult := .ok [7], transcribeResult := .ok "  ",
    converseResult := .ok (some "hi"), ttsFetch := .ok { ok := true, status := 200, body := [1] },
    encodeResult := .ok [2], sendResult := .ok () }

/-- An engine environment whose synthesis fetch returns a non-success
(`ok = false`) response while every earlier stage succeeds. -/
def ttsFailEnv : EngineEnv :=
  { decodeResult := .ok [7], transcribeResult := .ok "hola",
    converseResult := .ok (some "hi"), ttsFetch := .ok { ok := false, status := 500, body := [] },
    encodeResult := .ok [2], sendResult := .ok () }

/-- An engine environment for the greeting flow whose synthesis fetch
is rejected outright. -/
def greetTtsRejectEnv : EngineEnv :=
  { decodeResult := .ok [], transcribeResult := .ok "",
    converseResult := .ok (some "hello"), ttsFetch := .error "fetch failed",
    encodeResult := .ok [2], sendResult := .ok () }

/-- A handler environment with no `campaignId` query parameter and no
`ELEVENLABS_VOICE_ID` environment variable. -/
def plainHandlerEnv : HandlerEnv :=
  { campaignIdParam := none, campaignLookup := .ok none, envVoiceId := none,
    b64 := fun _ => [0] }

/-- A second session under the same stream id, used to exercise the
duplicate-`start` path. -/
def olderSession : CallSession :=
  { callSid := "C0", streamSid := "S1", campaignPrompt := "old prompt",
    campaignVoiceId := "old voice", isProcessing := false,
    conversationHistory := [{ role := Role.assistant, content := "old" }],
    audioBuffer := [[9]] }

/-! ## Registry lemmas -/

theorem mapGet_mapSet (m : List (String × CallSession)) (k : String) (v : CallSession) :
    mapGet (mapSet m k v) k = some v := by
  induction m with
  | nil => simp [mapGet, mapSet]
  | cons p rest ih =>
      obtain ⟨k', w⟩ := p
      by_cases h : k' = k <;> simp [mapGet, mapSet, h, ih]

theorem mapSet_mapSet (m : List (String × CallSession)) (k : String) (v w : CallSession) :
    mapSet (mapSet m k v) k w = mapSet m k w := by
  induction m with
  | nil => simp [mapSet]
  | cons p rest ih =>
      obtain ⟨k', u⟩ := p
      by_cases h : k' = k <;> simp [mapSet, h, ih]

theorem mapGet_mapDelete (m : List (String × CallSession)) (k : String) :
    mapGet (mapDelete m k) k = none := by
  induction m with
  | nil => simp [mapGet, mapDelete]
  | cons p rest ih =>
      obtain ⟨k', u⟩ := p
      by_cases h : k' = k <;> simp [mapGet, mapDelete, h, ih]

theorem mapSet_self (m : List (String × CallSession)) (k : String) (v : CallSession)
    (h : mapGet m k = some v) : mapSet m k v = m := by
  induction m with
  | nil => simp [mapGet] at h
  | cons p rest ih =>
      obtain ⟨k', u⟩ := p
      by_cases hk : k' = k
      · subst hk
        simp [mapGet] at h
        simp [mapSet, h]
      · simp [mapGet, hk] at h
        simp [mapSet, hk, ih h]

/-! ## Effects lemmas -/

theorem emptyEffects_append (e : Effects) : emptyEffects.append e = e := by
  cases e
  simp [Effects.append, emptyEffects]

theorem append_emptyEffects (e : Effects) : e.append emptyEffects = e := by
  cases e
  simp [Effects.append, emptyEffects]

theorem effects_append_assoc (a b c : Effects) :
    (a.append b).append c = a.append (b.append c) := by
  cases a
  cases b
  cases c
  simp [Effects.append]

theorem runEvents_append (henv : HandlerEnv) (st : List (String × CallSession))
    (l1 l2 : List (Option TwilioEvent)) :
    runEvents henv st (l1 ++ l2)
      = ((runEvents henv (runEvents henv st l1).1 l2).1,
         (runEvents henv st l1).2.append (runEvents henv (runEvents henv st l1).1 l2).2) := by
  induction l1 generalizing st with
  | nil => simp [runEvents, emptyEffects_append]
  | cons msg rest ih =>
      cases h : handleMessage henv st msg with
      | error e => simp [runEvents, h, ih]
      | ok r => simp [runEvents, h, ih, effects_append_assoc]

/-! ## Media trace lemmas -/

theorem runEvents_cons_ok (henv : HandlerEnv) (st : List (String × CallSession))
    (msg : Option TwilioEvent) (rest : List (Option TwilioEvent))
    (st' : List (String × CallSession)) (eff : Effects)
    (h : handleMessage henv st msg = .ok (st', eff)) :
    runEvents henv st (msg :: rest)
      = ((runEvents henv st' rest).1, eff.append (runEvents henv st' rest).2) := by
  simp [runEvents, h]

theorem runEvents_media_under (henv : HandlerEnv) (sid : String) (ps : List String)
    (st : List (String × CallSession)) (s : CallSession)
    (hget : mapGet st sid = some s)
    (hlen : s.audioBuffer.length + ps.length < 150) :
    runEvents henv st (ps.map (mediaMsg sid))
      = (mapSet st sid { s with audioBuffer := s.audioBuffer ++ ps.map henv.b64 },
         emptyEffects) := by
  induction ps generalizing st s with
  | nil =>
      simp [runEvents, mapSet_self st sid s hget]
  | cons p rest ih =>
      simp only [List.length_cons] at hlen
      have hone : ¬ 149 ≤ s.audioBuffer.length := by omega
      have hstep : handleMessage henv st (mediaMsg sid p)
          = .ok (mapSet st sid { s with audioBuffer := s.audioBuffer ++ [henv.b64 p] },
                 emptyEffects) := by
        simp [handleMessage, mediaMsg, hget, hone]
      have hget' : mapGet (mapSet st sid { s with audioBuffer := s.audioBuffer ++ [henv.b64 p] }) sid
          = some { s with audioBuffer := s.audioBuffer ++ [henv.b64 p] } :=
        mapGet_mapSet st sid _
      have hlen' : ({ s with audioBuffer := s.audioBuffer ++ [henv.b64 p] } : CallSession).audioBuffer.length
          + rest.length < 150 := by
        simp only [List.length_append, List.length_cons, List.length_nil]
        omega
      rw [List.map_cons, runEvents_cons_ok henv _ _ _ _ _ hstep, ih _ _ hget' hlen']
      simp [mapSet_mapSet, emptyEffects_append, List.append_assoc]

theorem runEvents_media_flush (henv : HandlerEnv) (sid : String) (ps : List String)
    (st : List (String × CallSession)) (s : CallSession)
    (hget : mapGet st sid = some s)
    (hlen : s.audioBuffer.length + ps.length = 150)
    (hne : ps ≠ []) :
    runEvents henv st (ps.map (mediaMsg sid))
      = (mapSet st sid { s with audioBuffer := [] },
         { logs := [],
           pipelineInvocations :=
             [({ s with audioBuffer := [] }, (s.audioBuffer ++ ps.map henv.b64).flatten)],
           greetings := [] }) := by
  induction ps generalizing st s with
  | nil => exact absurd rfl hne
  | cons p rest ih =>
      cases rest with
      | nil =>
          simp only [List.length_cons, List.length_nil] at hlen
          have hone : 149 ≤ s.audioBuffer.length := by omega
          have hstep : handleMessage henv st (mediaMsg sid p)
              = .ok (mapSet st sid { s with audioBuffer := [] },
                     { logs := [],
                       pipelineInvocations :=
                         [({ s with audioBuffer := [] },
                           (s.audioBuffer ++ [henv.b64 p]).flatten)],
                       greetings := [] }) := by
            simp [handleMessage, mediaMsg, hget, hone]
          rw [List.map_cons, List.map_nil, runEvents_cons_ok henv _ _ _ _ _ hstep]
          simp [runEvents, append_emptyEffects]
      | cons q qs =>
          simp only [List.length_cons] at hlen
          have hone : ¬ 149 ≤ s.audioBuffer.length := by omega
          have hstep : handleMessage henv st (mediaMsg sid p)
              = .ok (mapSet st sid { s with audioBuffer := s.audioBuffer ++ [henv.b64 p] },
                     emptyEffects) := by
            simp [handleMessage, mediaMsg, hget, hone]
          have hget' : mapGet (mapSet st sid { s with audioBuffer := s.audioBuffer ++ [henv.b64 p] }) sid
              = some { s with audioBuffer := s.audioBuffer ++ [henv.b64 p] } :=
            mapGet_mapSet st sid _
          have hlen' : ({ s with audioBuffer := s.audioBuffer ++ [henv.b64 p] } : CallSession).audioBuffer.length
              + (q :: qs).length = 150 := by
            simp only [List.length_append, List.length_cons, List.length_nil]
            omega
          rw [List.map_cons, runEvents_cons_ok henv _ _ _ _ _ hstep,
            ih _ _ hget' hlen' (by simp)]
          simp [mapSet_mapSet, emptyEffects_append, List.append_assoc]

/-! ## C1: the `isProcessing` guard is a scoped lock -/

/-- C1: a Pipeline run is entered only when the `isProcessing`
flag is false (a call under `isProcessing = true` returns at once with
no effect at all); once entered, the flag is true in every intermediate
state of the run and is false again in the final state of every exit
path — success, the empty-transcript short circuit, and every stage
failure — so at most one run per session is ever in flight. -/
theorem pipeline_busy_scoped_lock (env : EngineEnv) (s : CallSession) (audio : List Nat) :
    (s.isProcessing = true →
      processAudioPipeline env s audio =
        { finalSession := s, sent := [], converseCalls := [], synthCalls := [],
          midStates := [], entered := false })
    ∧ (s.isProcessing = false →
      (processAudioPipeline env s audio).finalSession.isProcessing = false
      ∧ ∀ st ∈ (processAudioPipeline env s audio).midStates, st.isProcessing = true) := by
  constructor
  · intro h
    simp [processAudioPipeline, h]
  · intro h
    rcases env with ⟨d, t, c, f, e, sr⟩
    cases d <;> cases t <;> cases c <;> cases f <;> cases e <;> cases sr <;>
      simp [processAudioPipeline, h] <;> split_ifs <;> simp_all

/-- Witness for C1 at a concrete environment and session. -/
theorem pipeline_busy_scoped_lock_witness :
    (processAudioPipeline okEnv freshSession [7]).finalSession.isProcessing = false :=
  ((pipeline_busy_scoped_lock okEnv freshSession [7]).2 rfl).1

/-! ## C5: empty or whitespace-only transcription exits quietly -/

/-- C5: when transcription succeeds but yields an empty or
whitespace-only string, the run exits with the conversation history
untouched, no chat-completion call, no synthesis call, no outbound
send, and `isProcessing` reset to false. -/
theorem pipeline_empty_transcript_quiet (env : EngineEnv) (s : CallSession)
    (audio : List Nat) (w : List Nat) (t : String)
    (hb : s.isProcessing = false)
    (hd : env.decodeResult = .ok w)
    (ht : env.transcribeResult = .ok t)
    (he : jsTrim t = "") :
    (processAudioPipeline env s audio).finalSession.conversationHistory
        = s.conversationHistory
    ∧ (processAudioPipeline env s audio).finalSession.isProcessing = false
    ∧ (processAudioPipeline env s audio).converseCalls = []
    ∧ (processAudioPipeline env s audio).synthCalls = []
    ∧ (processAudioPipeline env s audio).sent = [] := by
  simp [processAudioPipeline, hb, hd, ht, he]

/-- Witness for C5 at a concrete environment and session. -/
theorem pipeline_empty_transcript_quiet_witness :
    (processAudioPipeline blankTranscriptEnv freshSession [7]).finalSession.conversationHistory
        = freshSession.conversationHistory
    ∧ (processAudioPipeline blankTranscriptEnv freshSession [7]).finalSession.isProcessing = false
    ∧ (processAudioPipeline blankTranscriptEnv freshSession [7]).converseCalls = []
    ∧ (processAudioPipeline blankTranscriptEnv freshSession [7]).synthCalls = []
    ∧ (processAudioPipeline blankTranscriptEnv freshSession [7]).sent = [] :=
  pipeline_empty_transcript_quiet blankTranscriptEnv freshSession [7] [7] "  "
    rfl rfl rfl (by decide)

/-! ## C2: a non-success synthesis response -/

/-- Counterexample to C2 as stated: with a non-success synthesis
response, no message is sent and `isProcessing` returns to false, but
the history does NOT consist of the user turn alone — the assistant
turn was already appended before the synthesis call. -/
theorem pipeline_synth_failure_claim_counterexample :
    ¬ ((processAudioPipeline ttsFailEnv freshSession [7]).sent = []
       ∧ (processAudioPipeline ttsFailEnv freshSession [7]).finalSession.isProcessing = false
       ∧ (processAudioPipeline ttsFailEnv freshSession [7]).finalSession.conversationHistory
           = [{ role := Role.user, content := "hola" }]) := by
  decide

/-- C2 (amended): when the synthesis fetch returns a non-success
response, no outbound message is sent and `isProcessing` returns to
false, but the history holds BOTH the transcribed user turn and the
assistant turn for that run: the code appends the assistant reply in
the converse stage, before the synthesis request is made. -/
theorem pipeline_synth_failure_keeps_both_turns (env : EngineEnv) (s : CallSession)
    (audio : List Nat) (w : List Nat) (t : String) (c : Option String) (resp : TtsResponse)
    (hb : s.isProcessing = false)
    (hd : env.decodeResult = .ok w)
    (ht : env.transcribeResult = .ok t)
    (hne : jsTrim t ≠ "")
    (hc : env.converseResult = .ok c)
    (hf : env.ttsFetch = .ok resp)
    (hok : resp.ok = false) :
    (processAudioPipeline env s audio).sent = []
    ∧ (processAudioPipeline env s audio).finalSession.isProcessing = false
    ∧ (processAudioPipeline env s audio).finalSession.conversationHistory
        = s.conversationHistory
          ++ [{ role := Role.user, content := jsTrim t },
              { role := Role.assistant, content := c.getD "" }] := by
  simp [processAudioPipeline, hb, hd, ht, hne, hc, hf, hok]

/-- Witness for the amended C2 at a concrete environment and session. -/
theorem pipeline_synth_failure_keeps_both_turns_witness :
    (processAudioPipeline ttsFailEnv freshSession [7]).sent = []
    ∧ (processAudioPipeline ttsFailEnv freshSession [7]).finalSession.isProcessing = false
    ∧ (processAudioPipeline ttsFailEnv freshSession [7]).finalSession.conversationHistory
        = [{ role := Role.user, content := "hola" },
           { role := Role.assistant, content := "hi" }] := by
  have h := pipeline_synth_failure_keeps_both_turns ttsFailEnv freshSession [7] [7]
    "hola" (some "hi") { ok := false, status := 500, body := [] }
    rfl rfl rfl (by decide) rfl rfl rfl
  simpa using h

/-! ## C10: greeting appended before synthesis; greeting failures are caught -/

/-- C10: `sendGreeting` appends the greeting to the history right after
the chat-completion call, before synthesis and emission; so whenever
the synthesis request fails (rejected fetch or non-`ok` response) or
the transport send fails, the assistant greeting turn is in the final
history while nothing was sent, and the error is swallowed by the
`catch` instead of propagating (`sendGreeting` returns normally with
`errorCaught = true`). -/
theorem sendGreeting_failure_keeps_greeting (env : EngineEnv) (s : CallSession)
    (c : Option String)
    (hc : env.converseResult = .ok c)
    (hfail : (∃ e, env.ttsFetch = .error e)
      ∨ (∃ resp, env.ttsFetch = .ok resp ∧ resp.ok = false)
      ∨ (∃ e, env.sendResult = .error e)) :
    (sendGreeting env s).finalSession.conversationHistory
        = s.conversationHistory
          ++ [{ role := Role.assistant, content := c.getD defaultGreeting }]
    ∧ (sendGreeting env s).sent = []
    ∧ (sendGreeting env s).errorCaught = true := by
  rcases hfail with ⟨e, hf⟩ | ⟨resp, hf, hok⟩ | ⟨e, hs⟩
  · simp [sendGreeting, hc, hf]
  · simp [sendGreeting, hc, hf, hok]
  · cases hft : env.ttsFetch with
    | error _ => simp [sendGreeting, hc, hft]
    | ok resp =>
      cases hok : resp.ok with
      | false => simp [sendGreeting, hc, hft, hok]
      | true =>
        cases henc : env.encodeResult with
        | error _ => simp [sendGreeting, hc, hft, hok, henc]
        | ok mulaw => simp [sendGreeting, hc, hft, hok, henc, hs]

/-- Witness for C10 at a concrete environment and session. -/
theorem sendGreeting_failure_keeps_greeting_witness :
    (sendGreeting greetTtsRejectEnv freshSession).finalSession.conversationHistory
        = [{ role := Role.assistant, content := "hello" }]
    ∧ (sendGreeting greetTtsRejectEnv freshSession).sent = []
    ∧ (sendGreeting greetTtsRejectEnv freshSession).errorCaught = true := by
  have h := sendGreeting_failure_keeps_greeting greetTtsRejectEnv freshSession
    (some "hello") rfl (Or.inl ⟨"fetch failed", rfl⟩)
  simpa using h

/-! ## C3: flush threshold of 150 frames -/

theorem handleMessage_start_shape (henv : HandlerEnv) (st : List (String × CallSession))
    (acc cid sid : String) (tracks : List String) :
    ∃ ns eff, handleMessage henv st (some (TwilioEvent.start acc cid sid tracks))
        = .ok (mapSet st sid ns, eff)
      ∧ ns.audioBuffer = [] ∧ ns.isProcessing = false
      ∧ eff.pipelineInvocations = [] ∧ eff.greetings = [ns] :=
  ⟨_, _, rfl, rfl, rfl, rfl, rfl⟩

/-- C3: starting from an empty registry, a `start` for stream `sid`
followed by exactly 150 inbound-track media frames and a `stop` causes
exactly one `processAudioPipeline` launch (whose session snapshot is
not busy, so the drop-on-overlap guard admits it), while `start`
followed by exactly 149 inbound frames and a `stop` causes no launch
and leaves the stream unknown to the registry. -/
theorem threshold_150_exactly_one_invocation (henv : HandlerEnv) (acc cid sid : String)
    (tracks : List String) (ps qs : List String)
    (h150 : ps.length = 150) (h149 : qs.length = 149) :
    ((runEvents henv []
        (some (TwilioEvent.start acc cid sid tracks)
          :: (ps.map (mediaMsg sid) ++ [some (TwilioEvent.stop acc cid sid)]))).2.pipelineInvocations.length
        = 1
      ∧ ∀ inv ∈ (runEvents henv []
          (some (TwilioEvent.start acc cid sid tracks)
            :: (ps.map (mediaMsg sid) ++ [some (TwilioEvent.stop acc cid sid)]))).2.pipelineInvocations,
          inv.1.isProcessing = false)
    ∧ (runEvents henv []
        (some (TwilioEvent.start acc cid sid tracks)
          :: (qs.map (mediaMsg sid) ++ [some (TwilioEvent.stop acc cid sid)]))).2.pipelineInvocations.length
        = 0
    ∧ mapGet (runEvents henv []
        (some (TwilioEvent.start acc cid sid tracks)
          :: (qs.map (mediaMsg sid) ++ [some (TwilioEvent.stop acc cid sid)]))).1 sid
        = none := by
  obtain ⟨ns, eff, heq, hbuf, hbusy, hinv, hgreet⟩ :=
    handleMessage_start_shape henv [] acc cid sid tracks
  have hget : mapGet (mapSet [] sid ns) sid = some ns := mapGet_mapSet [] sid ns
  have hstop : ∀ st2 : List (String × CallSession),
      runEvents henv st2 [some (TwilioEvent.stop acc cid sid)]
        = (mapDelete st2 sid,
           { logs := [LogMsg.callEnded cid], pipelineInvocations := [], greetings := [] }) := by
    intro st2
    simp [runEvents, handleMessage, append_emptyEffects]
  refine ⟨⟨?_, ?_⟩, ?_, ?_⟩
  · rw [runEvents_cons_ok henv _ _ _ _ _ heq, runEvents_append,
      runEvents_media_flush henv sid ps (mapSet [] sid ns) ns hget
        (by rw [hbuf]; simpa using h150)
        (by intro hnil; rw [hnil] at h150; simp at h150),
      hstop]
    simp [Effects.append, hinv]
  · intro inv hmem
    rw [runEvents_cons_ok henv _ _ _ _ _ heq, runEvents_append,
      runEvents_media_flush henv sid ps (mapSet [] sid ns) ns hget
        (by rw [hbuf]; simpa using h150)
        (by intro hnil; rw [hnil] at h150; simp at h150),
      hstop] at hmem
    simp [Effects.append, hinv] at hmem
    rw [hmem]
    exact hbusy
  · rw [runEvents_cons_ok henv _ _ _ _ _ heq, runEvents_append,
      runEvents_media_under henv sid qs (mapSet [] sid ns) ns hget
        (by rw [hbuf]; simp [h149]),
      hstop]
    simp [Effects.append, hinv, emptyEffects]
  · rw [runEvents_cons_ok henv _ _ _ _ _ heq, runEvents_append,
      runEvents_media_under henv sid qs (mapSet [] sid ns) ns hget
        (by rw [hbuf]; simp [h149]),
      hstop]
    simp [mapGet_mapDelete]

/-- Witness for C3 at concrete payload lists of lengths 150 and 149. -/
theorem threshold_150_exactly_one_invocation_witness :
    ((runEvents plainHandlerEnv []
        (some (TwilioEvent.start "A" "C1" "S1" [])
          :: ((List.replicate 150 "p").map (mediaMsg "S1")
              ++ [some (TwilioEvent.stop "A" "C1" "S1")]))).2.pipelineInvocations.length
        = 1
      ∧ ∀ inv ∈ (runEvents plainHandlerEnv []
          (some (TwilioEvent.start "A" "C1" "S1" [])
            :: ((List.replicate 150 "p").map (mediaMsg "S1")
                ++ [some (TwilioEvent.stop "A" "C1" "S1")]))).2.pipelineInvocations,
          inv.1.isProcessing = false)
    ∧ (runEvents plainHandlerEnv []
        (some (TwilioEvent.start "A" "C1" "S1" [])
          :: ((List.replicate 149 "q").map (mediaMsg "S1")
              ++ [some (TwilioEvent.stop "A" "C1" "S1")]))).2.pipelineInvocations.length
        = 0
    ∧ mapGet (runEvents plainHandlerEnv []
        (some (TwilioEvent.start "A" "C1" "S1" [])
          :: ((List.replicate 149 "q").map (mediaMsg "S1")
              ++ [some (TwilioEvent.stop "A" "C1" "S1")]))).1 "S1"
        = none :=
  threshold_150_exactly_one_invocation plainHandlerEnv "A" "C1" "S1" []
    (List.replicate 150 "p") (List.replicate 149 "q") (by simp) (by simp)

/-! ## C4: the inbound audio accumulator invariant -/

theorem inboundCount_cons_inbound (p : String) (rest : List (String × String)) :
    inboundCount (("inbound", p) :: rest) = inboundCount rest + 1 := by
  simp [inboundCount]

theorem inboundCount_cons_other (tr p : String) (rest : List (String × String))
    (h : tr ≠ "inbound") : inboundCount ((tr, p) :: rest) = inboundCount rest := by
  simp [inboundCount, h]

theorem runEvents_media_mod (henv : HandlerEnv) (sid : String)
    (frames : List (String × String)) (st : List (String × CallSession)) (s : CallSession)
    (hget : mapGet st sid = some s)
    (hlen : s.audioBuffer.length < 150) :
    ∃ s', mapGet (runEvents henv st (frames.map (mediaOf sid))).1 sid = some s'
      ∧ s'.audioBuffer.length = (s.audioBuffer.length + inboundCount frames) % 150 := by
  induction frames generalizing st s with
  | nil =>
      exact ⟨s, by simpa [runEvents] using hget,
        by simp [inboundCount, Nat.mod_eq_of_lt hlen]⟩
  | cons f rest ih =>
      obtain ⟨tr, p⟩ := f
      by_cases htr : tr = "inbound"
      · subst htr
        by_cases hfull : 149 ≤ s.audioBuffer.length
        · have h149 : s.audioBuffer.length = 149 := by omega
          have hstep : handleMessage henv st (mediaOf sid ("inbound", p))
              = .ok (mapSet st sid { s with audioBuffer := [] },
                     { logs := [],
                       pipelineInvocations :=
                         [({ s with audioBuffer := [] },
                           (s.audioBuffer ++ [henv.b64 p]).flatten)],
                       greetings := [] }) := by
            simp [handleMessage, mediaOf, hget, hfull]
          obtain ⟨s', h1, h2⟩ := ih (mapSet st sid { s with audioBuffer := [] })
            { s with audioBuffer := [] } (mapGet_mapSet st sid _) (by simp)
          refine ⟨s', ?_, ?_⟩
          · rw [List.map_cons, runEvents_cons_ok henv _ _ _ _ _ hstep]
            exact h1
          · rw [h2, inboundCount_cons_inbound, h149]
            simp
            omega
        · have hstep : handleMessage henv st (mediaOf sid ("inbound", p))
              = .ok (mapSet st sid { s with audioBuffer := s.audioBuffer ++ [henv.b64 p] },
                     emptyEffects) := by
            simp [handleMessage, mediaOf, hget, hfull]
          obtain ⟨s', h1, h2⟩ := ih (mapSet st sid { s with audioBuffer := s.audioBuffer ++ [henv.b64 p] })
            { s with audioBuffer := s.audioBuffer ++ [henv.b64 p] } (mapGet_mapSet st sid _)
            (by simp only [List.length_append, List.length_cons, List.length_nil]; omega)
          refine ⟨s', ?_, ?_⟩
          · rw [List.map_cons, runEvents_cons_ok henv _ _ _ _ _ hstep]
            exact h1
          · rw [h2, inboundCount_cons_inbound]
            simp only [List.length_append, List.length_cons, List.length_nil]
            omega
      · have hstep : handleMessage henv st (mediaOf sid (tr, p)) = .ok (st, emptyEffects) := by
          simp [handleMessage, mediaOf, htr]
        obtain ⟨s', h1, h2⟩ := ih st s hget hlen
        refine ⟨s', ?_, ?_⟩
        · rw [List.map_cons, runEvents_cons_ok henv _ _ _ _ _ hstep]
          exact h1
        · rw [h2, inboundCount_cons_other tr p rest htr]

/-- C4: (1) after any sequence of media events for a known stream whose
session buffer is below the threshold, the buffer length equals the
number of inbound-track frames received since the last flush — `(old +
inbound) % 150`, flushes landing exactly at each 150th frame; (2) a
media event whose track is not `"inbound"` leaves the registry
untouched and has no effect at all; (3) at the 150th frame the buffer
is concatenated and cleared first, and the Pipeline launch receives the
cleared session together with the concatenated blob. -/
theorem accumulator_buffer_invariant (henv : HandlerEnv) (sid : String)
    (frames : List (String × String)) (st : List (String × CallSession)) (s : CallSession)
    (seq ch payload tr : String) :
    (mapGet st sid = some s → s.audioBuffer.length < 150 →
      ∃ s', mapGet (runEvents henv st (frames.map (mediaOf sid))).1 sid = some s'
        ∧ s'.audioBuffer.length = (s.audioBuffer.length + inboundCount frames) % 150)
    ∧ (tr ≠ "inbound" →
      handleMessage henv st (some (TwilioEvent.media seq tr ch payload sid))
        = .ok (st, emptyEffects))
    ∧ (mapGet st sid = some s → s.audioBuffer.length + 1 = 150 →
      handleMessage henv st (some (TwilioEvent.media seq "inbound" ch payload sid))
        = .ok (mapSet st sid { s with audioBuffer := [] },
          { logs := [],
            pipelineInvocations :=
              [({ s with audioBuffer := [] }, (s.audioBuffer ++ [henv.b64 payload]).flatten)],
            greetings := [] })) := by
  refine ⟨fun hget hlen => runEvents_media_mod henv sid frames st s hget hlen,
    fun htr => by simp [handleMessage, htr], fun hget hone => ?_⟩
  have hfull : 149 ≤ s.audioBuffer.length := by omega
  simp [handleMessage, hget, hfull]

/-- A session one frame short of the flush threshold. -/
def nearFullSession : CallSession :=
  { callSid := "C1", streamSid := "S1", campaignPrompt := defaultPrompt,
    campaignVoiceId := "", isProcessing := false, conversationHistory := [],
    audioBuffer := List.replicate 149 [5] }

/-- Witness for C4: each conjunct applied at a concrete registry,
session and frame sequence (two inbound frames around one outbound
frame). -/
theorem accumulator_buffer_invariant_witness :
    (∃ s', mapGet (runEvents plainHandlerEnv [("S1", freshSession)]
          ([("inbound", "a"), ("outbound", "b"), ("inbound", "c")].map (mediaOf "S1"))).1 "S1"
        = some s'
      ∧ s'.audioBuffer.length
          = (freshSession.audioBuffer.length
              + inboundCount [("inbound", "a"), ("outbound", "b"), ("inbound", "c")]) % 150)
    ∧ handleMessage plainHandlerEnv [("S1", freshSession)]
        (some (TwilioEvent.media "1" "outbound" "1" "b" "S1"))
        = .ok ([("S1", freshSession)], emptyEffects)
    ∧ handleMessage plainHandlerEnv [("S1", nearFullSession)]
        (some (TwilioEvent.media "1" "inbound" "1" "z" "S1"))
        = .ok (mapSet [("S1", nearFullSession)] "S1" { nearFullSession with audioBuffer := [] },
          { logs := [],
            pipelineInvocations :=
              [({ nearFullSession with audioBuffer := [] },
                (nearFullSession.audioBuffer ++ [plainHandlerEnv.b64 "z"]).flatten)],
            greetings := [] }) :=
  ⟨(accumulator_buffer_invariant plainHandlerEnv "S1"
      [("inbound", "a"), ("outbound", "b"), ("inbound", "c")] [("S1", freshSession)]
      freshSession "1" "1" "b" "outbound").1 rfl (by simp [freshSession]),
   (accumulator_buffer_invariant plainHandlerEnv "S1" [] [("S1", freshSession)]
      freshSession "1" "1" "b" "outbound").2.1 (by decide),
   (accumulator_buffer_invariant plainHandlerEnv "S1" [] [("S1", nearFullSession)]
      nearFullSession "1" "1" "z" "inbound").2.2 rfl (by simp [nearFullSession])⟩

/-! ## C6: start without a campaign selector uses the defaults -/

/-- C6: on a `start` event with no campaign selector — or whose
campaign lookup throws or misses — the session is registered with the
default prompt (`"You are a helpful assistant."`) and the default voice
(the `ELEVENLABS_VOICE_ID` environment variable, else `""`), and
`sendGreeting` is launched exactly once with that session. -/
theorem start_no_campaign_uses_defaults (henv : HandlerEnv) (st : List (String × CallSession))
    (acc cid sid : String) (tracks : List String)
    (hdef : truthyOpt henv.campaignIdParam = false
      ∨ henv.campaignLookup = .ok none
      ∨ ∃ e, henv.campaignLookup = .error e) :
    ∃ eff, handleMessage henv st (some (TwilioEvent.start acc cid sid tracks))
        = .ok (mapSet st sid (defaultSession cid sid henv), eff)
      ∧ eff.greetings = [defaultSession cid sid henv]
      ∧ (defaultSession cid sid henv).campaignPrompt = defaultPrompt
      ∧ (defaultSession cid sid henv).campaignVoiceId = henv.envVoiceId.getD "" := by
  rcases hdef with h | h | ⟨e, h⟩
  · exact ⟨{ logs := [LogMsg.callStarted cid], pipelineInvocations := [],
             greetings := [defaultSession cid sid henv] },
      by simp [handleMessage, h, defaultSession], rfl, rfl, rfl⟩
  · cases htr : truthyOpt henv.campaignIdParam with
    | false =>
        exact ⟨{ logs := [LogMsg.callStarted cid], pipelineInvocations := [],
                 greetings := [defaultSession cid sid henv] },
          by simp [handleMessage, htr, defaultSession], rfl, rfl, rfl⟩
    | true =>
        exact ⟨{ logs := [LogMsg.callStarted cid], pipelineInvocations := [],
                 greetings := [defaultSession cid sid henv] },
          by simp [handleMessage, htr, h, defaultSession], rfl, rfl, rfl⟩
  · cases htr : truthyOpt henv.campaignIdParam with
    | false =>
        exact ⟨{ logs := [LogMsg.callStarted cid], pipelineInvocations := [],
                 greetings := [defaultSession cid sid henv] },
          by simp [handleMessage, htr, defaultSession], rfl, rfl, rfl⟩
    | true =>
        exact ⟨{ logs := [LogMsg.callStarted cid, LogMsg.campaignFetchError],
                 pipelineInvocations := [], greetings := [defaultSession cid sid henv] },
          by simp [handleMessage, htr, h, defaultSession], rfl, rfl, rfl⟩

/-- Witness for C6: a `start` with `streamId="S1"`, `callId="C1"` and no
campaign selector. -/
theorem start_no_campaign_uses_defaults_witness :
    ∃ eff, handleMessage plainHandlerEnv [] (some (TwilioEvent.start "A" "C1" "S1" []))
        = .ok (mapSet [] "S1" (defaultSession "C1" "S1" plainHandlerEnv), eff)
      ∧ eff.greetings = [defaultSession "C1" "S1" plainHandlerEnv]
      ∧ (defaultSession "C1" "S1" plainHandlerEnv).campaignPrompt = defaultPrompt
      ∧ (defaultSession "C1" "S1" plainHandlerEnv).campaignVoiceId
          = plainHandlerEnv.envVoiceId.getD "" :=
  start_no_campaign_uses_defaults plainHandlerEnv [] "A" "C1" "S1" [] (Or.inl rfl)

/-! ## C7: a duplicate `start` replaces the entry but logs no violation -/

/-- Counterexample to C7 as stated: a `start` for a `streamSid` already
in the registry replaces the prior entry, but its complete log output
is the single generic call-started line — exactly what the same `start`
emits on an empty registry — so no protocol violation is logged (the
handler never even checks whether the key was present). -/
theorem duplicate_start_counterexample :
    handleMessage plainHandlerEnv [("S1", olderSession)]
        (some (TwilioEvent.start "A" "C2" "S1" []))
      = .ok ([("S1", defaultSession "C2" "S1" plainHandlerEnv)],
             { logs := [LogMsg.callStarted "C2"], pipelineInvocations := [],
               greetings := [defaultSession "C2" "S1" plainHandlerEnv] })
    ∧ handleMessage plainHandlerEnv [] (some (TwilioEvent.start "A" "C2" "S1" []))
      = .ok ([("S1", defaultSession "C2" "S1" plainHandlerEnv)],
             { logs := [LogMsg.callStarted "C2"], pipelineInvocations := [],
               greetings := [defaultSession "C2" "S1" plainHandlerEnv] })
    ∧ defaultSession "C2" "S1" plainHandlerEnv ≠ olderSession := by
  refine ⟨rfl, rfl, ?_⟩
  decide

/-- C7 (amended): a `start` whose `streamSid` is already registered
replaces the prior entry with a freshly created session — a subsequent
lookup returns the new one — but the output of the handler, logs included,
is identical to handling the same `start` on an empty registry: no
protocol-violation log is emitted. -/
theorem duplicate_start_replaces_silently (henv : HandlerEnv)
    (st : List (String × CallSession)) (acc cid sid : String) (tracks : List String)
    (old : CallSession) (_hold : mapGet st sid = some old) :
    ∃ ns eff effF,
      handleMessage henv st (some (TwilioEvent.start acc cid sid tracks))
          = .ok (mapSet st sid ns, eff)
      ∧ mapGet (mapSet st sid ns) sid = some ns
      ∧ ns.conversationHistory = [] ∧ ns.audioBuffer = []
      ∧ handleMessage henv [] (some (TwilioEvent.start acc cid sid tracks))
          = .ok ([(sid, ns)], effF)
      ∧ effF.logs = eff.logs :=
  ⟨_, _, _, rfl, mapGet_mapSet st sid _, rfl, rfl, rfl, rfl⟩

/-- Witness for the amended C7 with a prior entry under `"S1"`. -/
theorem duplicate_start_replaces_silently_witness :
    ∃ ns eff effF,
      handleMessage plainHandlerEnv [("S1", olderSession)]
          (some (TwilioEvent.start "A" "C2" "S1" []))
          = .ok (mapSet [("S1", olderSession)] "S1" ns, eff)
      ∧ mapGet (mapSet [("S1", olderSession)] "S1" ns) "S1" = some ns
      ∧ ns.conversationHistory = [] ∧ ns.audioBuffer = []
      ∧ handleMessage plainHandlerEnv [] (some (TwilioEvent.start "A" "C2" "S1" []))
          = .ok ([("S1", ns)], effF)
      ∧ effF.logs = eff.logs :=
  duplicate_start_replaces_silently plainHandlerEnv [("S1", olderSession)]
    "A" "C2" "S1" [] olderSession rfl

/-! ## C8: unknown-stream media is logged and dropped; stop removes the session -/

/-- C8: an inbound-track media event whose `streamSid` has no session
is logged and dropped — the registry is unchanged, nothing is launched,
and the handler returns normally rather than raising; and a `stop`
deletes the session, after which lookup of that `streamSid` misses. -/
theorem unknown_media_dropped_stop_removes (henv : HandlerEnv)
    (st : List (String × CallSession)) (seq ch payload acc cid sid : String) :
    (mapGet st sid = none →
      handleMessage henv st (some (TwilioEvent.media seq "inbound" ch payload sid))
        = .ok (st, { logs := [LogMsg.mediaUnknownStream sid],
                     pipelineInvocations := [], greetings := [] }))
    ∧ handleMessage henv st (some (TwilioEvent.stop acc cid sid))
        = .ok (mapDelete st sid,
               { logs := [LogMsg.callEnded cid], pipelineInvocations := [], greetings := [] })
    ∧ mapGet (mapDelete st sid) sid = none := by
  refine ⟨fun h => by simp [handleMessage, h], by simp [handleMessage],
    mapGet_mapDelete st sid⟩

/-- Witness for C8 on an empty registry. -/
theorem unknown_media_dropped_stop_removes_witness :
    handleMessage plainHandlerEnv [] (some (TwilioEvent.media "1" "inbound" "1" "a" "S9"))
        = .ok ([], { logs := [LogMsg.mediaUnknownStream "S9"],
                     pipelineInvocations := [], greetings := [] })
    ∧ mapGet (mapDelete [] "S9") "S9" = none :=
  ⟨(unknown_media_dropped_stop_removes plainHandlerEnv [] "1" "1" "a" "A" "C1" "S9").1 rfl,
   (unknown_media_dropped_stop_removes plainHandlerEnv [] "1" "1" "a" "A" "C1" "S9").2.2⟩

/-! ## C9: malformed and unknown messages -/

/-- Counterexample to C9 as stated: a malformed message is NOT ignored
and logged — `JSON.parse` throws and the exception escapes the handler
uncaught (no `.ok` result exists) — and an unknown event type, while
ignored without state mutation, is NOT logged: its effect record is
completely empty. -/
theorem protocol_error_counterexample :
    handleMessage plainHandlerEnv [] none = .error jsonParseError
    ∧ (∀ (st' : List (String × CallSession)) (eff : Effects),
        handleMessage plainHandlerEnv [] none ≠ .ok (st', eff))
    ∧ handleMessage plainHandlerEnv [] (some (TwilioEvent.unknown "foo"))
        = .ok ([], emptyEffects)
    ∧ emptyEffects.logs = [] := by
  refine ⟨rfl, ?_, rfl, rfl⟩
  intro st' eff h
  simp [handleMessage] at h

/-- C9 (amended): an unknown event type is silently ignored — no log,
no state mutation, normal return; a malformed message mutates no state
either, but instead of being ignored and logged it makes the handler
throw: the `JSON.parse` exception escapes uncaught. -/
theorem protocol_error_handling (henv : HandlerEnv)
    (st : List (String × CallSession)) (name : String) :
    handleMessage henv st none = .error jsonParseError
    ∧ handleMessage henv st (some (TwilioEvent.unknown name)) = .ok (st, emptyEffects) :=
  ⟨rfl, rfl⟩

end Centralino
